import Mathlib

/-!
Verification of the blog content store of this repository
(`contexts/BlogContext.tsx`): the in-memory post collection, its
create/update/delete/like/comment operations, read-time derivation, view
counting, sorting, and the startup load policy.  The TypeScript source is
shallowly embedded below: JavaScript strings become `String`, `Date` becomes
an epoch-milliseconds wrapper, arrays become `List`, the module-level
`Map` cache becomes an association list with `Map`-like operations, and the
React state update functions become explicit state-passing functions.
Nondeterministic inputs of the source (wall clock, random id and view
baseline, the acting user) are passed as explicit parameters.
-/

namespace BlogVerse

/-- A JavaScript `Date`, represented by its epoch-milliseconds value
(`getTime()`); only construction and `getTime()` comparisons occur in the
embedded code. -/
structure Date where
  ms : Int
deriving DecidableEq

/-- The acting user supplied by the `AuthContext` collaborator; the blog
store reads exactly the fields `id`, `username` and `avatar`. -/
structure User where
  id : String
  username : String
  avatar : Option String
deriving DecidableEq

/-- The `Comment` interface of the source. -/
structure Comment where
  id : String
  authorId : String
  authorName : String
  authorAvatar : Option String
  content : String
  createdAt : Date
  isAnonymous : Option Bool
deriving DecidableEq

/-- The `Blog` interface of the source. -/
structure Blog where
  id : String
  title : String
  content : String
  excerpt : String
  authorId : String
  authorName : String
  authorAvatar : Option String
  category : String
  tags : List String
  likes : List String
  views : Nat
  comments : List Comment
  createdAt : Date
  updatedAt : Date
  isSpotlight : Option Bool
  readTime : Nat
deriving DecidableEq

/-- The provider state the operations act on: the `blogs` React state plus
the module-level `fullContentStorage` map (keyed by blog id). -/
structure BlogState where
  blogs : List Blog
  fullContentStorage : List (String × String)
deriving DecidableEq

/-- Characters matched by the JavaScript regular-expression class `\s`
(whitespace, as used in `split(/\s+/)`). -/
def isJsSpace (c : Char) : Bool :=
  c = ' ' || c = '\t' || c = '\n' || c = '\r' || c = '\x0b' || c = '\x0c' ||
  c.val = 0xa0 || c.val = 0x1680 || (0x2000 ≤ c.val && c.val ≤ 0x200a) ||
  c.val = 0x2028 || c.val = 0x2029 || c.val = 0x202f || c.val = 0x205f ||
  c.val = 0x3000 || c.val = 0xfeff

/-- Drop characters up to and including the first `>`; the remainder of the
input after a tag match of the regular expression `<[^>]*>`. -/
def dropThroughGt : List Char → List Char
  | [] => []
  | c :: r => if c = '>' then r else dropThroughGt r

/-- Fuel-indexed worker for `stripTags` (fuel bounds the recursion depth so
the definition is structural; `stripTags` always supplies enough fuel).
A `<` that is followed by a later `>` begins a tag reaching to the first
such `>` (the regular expression `<[^>]*>` matches exactly that span); a
`<` with no later `>` does not match and is kept. -/
def stripTagsGo : Nat → List Char → List Char
  | _, [] => []
  | 0, l => l
  | fuel + 1, c :: r =>
    if c = '<' ∧ '>' ∈ r then stripTagsGo fuel (dropThroughGt r)
    else c :: stripTagsGo fuel r

/-- The effect of `content.replace(/<[^>]*>/g, '')` on the character list
of the string. -/
def stripTags (l : List Char) : List Char :=
  stripTagsGo l.length l

/-- Fuel-indexed worker for `splitWs`. -/
def splitWsGo : Nat → List Char → List (List Char)
  | _, [] => [[]]
  | 0, l => [l]
  | fuel + 1, c :: r =>
    if isJsSpace c then [] :: splitWsGo fuel (r.dropWhile isJsSpace)
    else
      match splitWsGo fuel r with
      | [] => [[c]]
      | f :: fs => (c :: f) :: fs

/-- The fields produced by JavaScript `str.split(/\s+/)`: maximal
whitespace runs separate fields, a leading or trailing run contributes an
empty field, and the empty string yields the single field `""`. -/
def splitWs (l : List Char) : List (List Char) :=
  splitWsGo l.length l

/-- The source's `calculateReadTime`: strip markup tags, split on
whitespace, count the fields, and take `Math.ceil(wordCount / 200)`. -/
def calculateReadTime (content : String) : Nat :=
  let wordsPerMinute := 200
  let wordCount := (splitWs (stripTags content.data)).length
  (wordCount + (wordsPerMinute - 1)) / wordsPerMinute

/-- JavaScript `Map.set`: replace the value in place when the key is
present, otherwise append the new entry (insertion order is kept). -/
def mapSet (m : List (String × String)) (k v : String) : List (String × String) :=
  if m.any (fun e => e.1 = k) then
    m.map (fun e => if e.1 = k then (k, v) else e)
  else m ++ [(k, v)]

/-- JavaScript `Map.delete`: remove the entry with the given key. -/
def mapDelete (m : List (String × String)) (k : String) : List (String × String) :=
  m.filter (fun e => e.1 != k)

/-- JavaScript `Map.get`: the stored value, or `undefined` (`none`). -/
def mapGet (m : List (String × String)) (k : String) : Option String :=
  (m.find? (fun e => e.1 = k)).map (fun e => e.2)

/-- The argument of `createBlog`: a `Blog` minus the generated fields
(`Omit<Blog, 'id' | 'authorId' | 'authorName' | 'authorAvatar' | 'likes' |
'views' | 'comments' | 'createdAt' | 'updatedAt' | 'readTime'>`). -/
structure BlogDraft where
  title : String
  content : String
  excerpt : String
  category : String
  tags : List String
  isSpotlight : Option Bool
deriving DecidableEq

/-- A `Partial<Blog>` argument of `updateBlog`: every field optional
(`none` means the key is absent from the object, so the spread
`{ ...blog, ...updates }` keeps the old value).  Fields that are
themselves optional in `Blog` carry `Option (Option _)` so that an update
can also overwrite them with `undefined`. -/
structure BlogUpdates where
  id : Option String := none
  title : Option String := none
  content : Option String := none
  excerpt : Option String := none
  authorId : Option String := none
  authorName : Option String := none
  authorAvatar : Option (Option String) := none
  category : Option String := none
  tags : Option (List String) := none
  likes : Option (List String) := none
  views : Option Nat := none
  comments : Option (List Comment) := none
  createdAt : Option Date := none
  updatedAt : Option Date := none
  isSpotlight : Option (Option Bool) := none
  readTime : Option Nat := none
deriving DecidableEq

/-- The object spread `{ ...blog, ...updates }`: present update keys win. -/
def applyUpdates (blog : Blog) (u : BlogUpdates) : Blog :=
  { id := u.id.getD blog.id
    title := u.title.getD blog.title
    content := u.content.getD blog.content
    excerpt := u.excerpt.getD blog.excerpt
    authorId := u.authorId.getD blog.authorId
    authorName := u.authorName.getD blog.authorName
    authorAvatar := u.authorAvatar.getD blog.authorAvatar
    category := u.category.getD blog.category
    tags := u.tags.getD blog.tags
    likes := u.likes.getD blog.likes
    views := u.views.getD blog.views
    comments := u.comments.getD blog.comments
    createdAt := u.createdAt.getD blog.createdAt
    updatedAt := u.updatedAt.getD blog.updatedAt
    isSpotlight := u.isSpotlight.getD blog.isSpotlight
    readTime := u.readTime.getD blog.readTime }

/-- The source's `createBlog`.  The wall clock (`new Date()`), the
generated id and the random view baseline (`Math.floor(Math.random()*100)`)
are explicit parameters; the `% 100 + 1` keeps the baseline in the
source's 1..100 range.  A `null` user throws
`Error('User must be logged in to create blog')` before any state change;
otherwise large content is copied into the full-content cache, the new
blog is prepended, and the fresh id is returned. -/
def createBlog (user : Option User) (blogData : BlogDraft) (freshId : String)
    (rand : Nat) (now : Date) (st : BlogState) :
    Except String String × BlogState :=
  match user with
  | none => (Except.error ("User must be logged in to create blog"), st)
  | some u =>
    let storage :=
      if blogData.content.length > 1000 then
        mapSet st.fullContentStorage freshId blogData.content
      else st.fullContentStorage
    let newBlog : Blog :=
      { id := freshId
        title := blogData.title
        content := blogData.content
        excerpt := blogData.excerpt
        authorId := u.id
        authorName := u.username
        authorAvatar := u.avatar
        category := blogData.category
        tags := blogData.tags
        likes := []
        views := rand % 100 + 1
        comments := []
        createdAt := now
        updatedAt := now
        isSpotlight := blogData.isSpotlight
        readTime := calculateReadTime blogData.content }
    (Except.ok freshId, { blogs := newBlog :: st.blogs, fullContentStorage := storage })

/-- The body mapped over the collection by `updateBlog`: on the matching
id, spread the updates over the blog, then overwrite `updatedAt` with the
current time and `readTime` with a recomputation from `updates.content`
when that field is truthy (present and non-empty), else the blog's old
`readTime`. -/
def updateOne (id : String) (u : BlogUpdates) (now : Date) (blog : Blog) : Blog :=
  if blog.id = id then
    { applyUpdates blog u with
      updatedAt := now
      readTime :=
        match u.content with
        | some c => if c = "" then blog.readTime else calculateReadTime c
        | none => blog.readTime }
  else blog

/-- The source's `updateBlog`. -/
def updateBlog (id : String) (u : BlogUpdates) (now : Date) (st : BlogState) : BlogState :=
  { st with blogs := st.blogs.map (updateOne id u now) }

/-- The source's `deleteBlog`: filter the blog out of the collection and
delete its full-content cache entry. -/
def deleteBlog (id : String) (st : BlogState) : BlogState :=
  { blogs := st.blogs.filter (fun blog => blog.id != id)
    fullContentStorage := mapDelete st.fullContentStorage id }

/-- The body mapped over the collection by `toggleLikeBlog` for a
non-null user: on the matching id, remove the user's id from `likes` when
present, append it when absent. -/
def toggleOne (u : User) (id : String) (blog : Blog) : Blog :=
  if blog.id = id then
    if u.id ∈ blog.likes then
      { blog with likes := blog.likes.filter (fun userId => userId != u.id) }
    else
      { blog with likes := blog.likes ++ [u.id] }
  else blog

/-- The source's `toggleLikeBlog`: early return (no state change) when no
user is logged in. -/
def toggleLikeBlog (user : Option User) (id : String) (st : BlogState) : BlogState :=
  match user with
  | none => st
  | some u => { st with blogs := st.blogs.map (toggleOne u id) }

/-- The `user.id.startsWith('admin')` check of `deleteComment`. -/
def isAdminId (s : String) : Bool :=
  List.isPrefixOf ("admin".data) s.data

/-- The source's `deleteComment`: no-op when no user is logged in;
otherwise, on the matching blog, keep each comment whose id differs from
`commentId`, or whose author is neither the acting user nor covered by the
admin-prefix check. -/
def deleteComment (user : Option User) (blogId commentId : String) (st : BlogState) : BlogState :=
  match user with
  | none => st
  | some u =>
    { st with
      blogs := st.blogs.map (fun blog =>
        if blog.id = blogId then
          { blog with
            comments := blog.comments.filter (fun comment =>
              comment.id != commentId ||
              (comment.authorId != u.id && !(isAdminId u.id))) }
        else blog) }

/-- The source's `incrementViews`: bump the view counter of the matching
blog; every other field (including `updatedAt`) is untouched. -/
def incrementViews (id : String) (st : BlogState) : BlogState :=
  { st with
    blogs := st.blogs.map (fun blog =>
      if blog.id = id then { blog with views := blog.views + 1 } else blog) }

/-- The source's `getFullBlogContent`: a truthy cache entry wins, else the
blog's own `content` field, else the empty string. -/
def getFullBlogContent (blogId : String) (st : BlogState) : String :=
  match mapGet st.fullContentStorage blogId with
  | some fullContent =>
    if fullContent ≠ "" then fullContent
    else ((st.blogs.find? (fun b => b.id = blogId)).map (fun b => b.content)).getD ("")
  | none => ((st.blogs.find? (fun b => b.id = blogId)).map (fun b => b.content)).getD ("")

/-- The `SortBy` union type of the source. -/
inductive SortBy
  | recent
  | oldest
  | likes
  | views
deriving DecidableEq

/-- The `SortOrder` union type of the source. -/
inductive SortOrder
  | asc
  | desc
deriving DecidableEq

/-- The `comparison` value computed by the `switch` inside
`getSortedBlogs` (the unreachable `default` branch repeats the `recent`
case). -/
def comparison (sortBy : SortBy) (a b : Blog) : Int :=
  match sortBy with
  | .recent => b.createdAt.ms - a.createdAt.ms
  | .oldest => a.createdAt.ms - b.createdAt.ms
  | .likes => (b.likes.length : Int) - (a.likes.length : Int)
  | .views => (b.views : Int) - (a.views : Int)

/-- The comparator handed to `Array.prototype.sort`:
`sortOrder === 'desc' ? comparison : -comparison`. -/
def sortComparator (sortBy : SortBy) (sortOrder : SortOrder) (a b : Blog) : Int :=
  match sortOrder with
  | .desc => comparison sortBy a b
  | .asc => -comparison sortBy a b

/-- The source's `getSortedBlogs` on an explicit list.  `Array.sort` with
a consistent comparator is specified (ES2019+) to produce the stable order
in which `a` precedes `b` whenever the comparator returns a non-positive
value; `List.insertionSort` with the relation `comparator a b ≤ 0`
produces exactly that order. -/
def getSortedBlogs (sortBy : SortBy) (sortOrder : SortOrder) (blogsToSort : List Blog) :
    List Blog :=
  blogsToSort.insertionSort (fun a b => sortComparator sortBy sortOrder a b ≤ 0)

/-- The built-in seed data (`sampleBlogs`) of the source, with the
timezone-less `new Date('...')` literals rendered as epoch milliseconds
(UTC; only their relative order matters to the embedded logic). -/
def sampleBlogs : List Blog :=
  [ { id := "1"
      title := "The Future of Web Development: Trends to Watch in 2024"
      content := "<h2>Introduction</h2><p>Web development continues to evolve at a rapid pace, with new technologies and methodologies emerging constantly. As we progress through 2024, several key trends are shaping the future of how we build and interact with web applications.</p><h3>1. AI-Powered Development Tools</h3><p>Artificial Intelligence is revolutionizing the development process. From code completion to automated testing, AI tools are becoming indispensable for modern developers.</p><h3>2. WebAssembly (WASM) Adoption</h3><p>WebAssembly is gaining traction as a way to run high-performance applications in the browser. Languages like Rust, C++, and Go can now compile to WASM.</p>"
      excerpt := "Exploring the latest trends shaping web development in 2024, from AI-powered tools to WebAssembly and edge computing."
      authorId := "author1"
      authorName := "Sarah Chen"
      authorAvatar := some ("https://images.unsplash.com/photo-1494790108755-2616b612b23c?w=150&h=150&fit=crop&crop=face")
      category := "Programming"
      tags := ["Web Development", "AI", "WebAssembly", "Trends"]
      likes := ["user1", "user2", "user3"]
      views := 2547
      comments := []
      createdAt := ⟨1705314600000⟩
      updatedAt := ⟨1705314600000⟩
      isSpotlight := some true
      readTime := 8 }
  , { id := "2"
      title := "Building Scalable Design Systems: A Complete Guide"
      content := "<h2>What is a Design System?</h2><p>A design system is a comprehensive set of standards intended to manage design at scale by reducing redundancy while creating a shared language and visual consistency.</p><h3>Key Components</h3><ul><li>Design Tokens</li><li>Component Library</li><li>Guidelines</li><li>Documentation</li></ul>"
      excerpt := "Learn how to create and maintain design systems that scale with your organization, ensuring consistency and efficiency."
      authorId := "author2"
      authorName := "Marcus Johnson"
      authorAvatar := some ("https://images.unsplash.com/photo-1472099645785-5658abf4ff4e?w=150&h=150&fit=crop&crop=face")
      category := "Design"
      tags := ["Design Systems", "UI/UX", "Figma", "Components"]
      likes := ["user3", "user4"]
      views := 1892
      comments := []
      createdAt := ⟨1705069200000⟩
      updatedAt := ⟨1705069200000⟩
      isSpotlight := some true
      readTime := 12 }
  , { id := "3"
      title := "The Rise of AI in Creative Industries"
      content := "<h2>AI Transforms Creative Work</h2><p>Artificial Intelligence is revolutionizing creative industries, from graphic design to music composition, offering new possibilities while raising important questions.</p><h3>AI in Visual Arts</h3><p>Tools like DALL-E, Midjourney, and Stable Diffusion have democratized digital art creation.</p>"
      excerpt := "Discover how AI is transforming creative industries and reshaping the way artists, designers, and creators work."
      authorId := "author3"
      authorName := "Emma Thompson"
      authorAvatar := some ("https://images.unsplash.com/photo-1438761681033-6461ffad8d80?w=150&h=150&fit=crop&crop=face")
      category := "Technology"
      tags := ["AI", "Creativity", "Art", "Innovation"]
      likes := ["user1", "user5"]
      views := 1654
      comments := []
      createdAt := ⟨1704878100000⟩
      updatedAt := ⟨1704878100000⟩
      isSpotlight := some true
      readTime := 6 }
  , { id := "4"
      title := "Sustainable Travel: Exploring the World Responsibly"
      content := "<h2>The Impact of Tourism</h2><p>Travel broadens perspectives but has environmental impact. Sustainable travel minimizes negative effects while maximizing positive contributions to local communities.</p>"
      excerpt := "Learn how to explore the world while minimizing your environmental impact and supporting local communities."
      authorId := "author4"
      authorName := "David Kim"
      authorAvatar := some ("https://images.unsplash.com/photo-1507003211169-0a1dd7228f2d?w=150&h=150&fit=crop&crop=face")
      category := "Travel"
      tags := ["Sustainability", "Environment", "Responsible Travel"]
      likes := []
      views := 823
      comments := []
      createdAt := ⟨1704732300000⟩
      updatedAt := ⟨1704732300000⟩
      isSpotlight := none
      readTime := 10 }
  , { id := "5"
      title := "The Psychology of User Experience Design"
      content := "<h2>Understanding User Behavior</h2><p>Great UX design is about understanding how people think, feel, and behave when interacting with digital products. Psychology plays a crucial role.</p>"
      excerpt := "Explore the psychological principles behind great user experience design and learn how to create interfaces that users love."
      authorId := "author5"
      authorName := "Lisa Wang"
      authorAvatar := some ("https://images.unsplash.com/photo-1544005313-94ddf0286df2?w=150&h=150&fit=crop&crop=face")
      category := "Design"
      tags := ["UX", "Psychology", "User Research", "Interface Design"]
      likes := ["user2", "user4", "user6"]
      views := 1234
      comments := []
      createdAt := ⟨1704453600000⟩
      updatedAt := ⟨1704453600000⟩
      isSpotlight := none
      readTime := 7 } ]

/-- A comment as it sits in the persisted snapshot: the `Date` has become
a round-trippable value (the spec's ISO-8601 string or epoch number),
modelled as the epoch number. -/
structure RawComment where
  id : String
  authorId : String
  authorName : String
  authorAvatar : Option String
  content : String
  createdAt : Int
  isAnonymous : Option Bool
deriving DecidableEq

/-- A blog as it sits in the persisted snapshot (dates as epoch numbers,
comments raw). -/
structure RawBlog where
  id : String
  title : String
  content : String
  excerpt : String
  authorId : String
  authorName : String
  authorAvatar : Option String
  category : String
  tags : List String
  likes : List String
  views : Nat
  comments : List RawComment
  createdAt : Int
  updatedAt : Int
  isSpotlight : Option Bool
  readTime : Nat
deriving DecidableEq

/-- The `new Date(comment.createdAt)` reconstruction in the load effect. -/
def reviveComment (c : RawComment) : Comment :=
  { id := c.id
    authorId := c.authorId
    authorName := c.authorName
    authorAvatar := c.authorAvatar
    content := c.content
    createdAt := ⟨c.createdAt⟩
    isAnonymous := c.isAnonymous }

/-- The per-blog reconstruction in the load effect: spread the stored
blog, rebuild `createdAt`/`updatedAt` as `Date` values, and revive every
nested comment timestamp. -/
def reviveBlog (b : RawBlog) : Blog :=
  { id := b.id
    title := b.title
    content := b.content
    excerpt := b.excerpt
    authorId := b.authorId
    authorName := b.authorName
    authorAvatar := b.authorAvatar
    category := b.category
    tags := b.tags
    likes := b.likes
    views := b.views
    comments := b.comments.map reviveComment
    createdAt := ⟨b.createdAt⟩
    updatedAt := ⟨b.updatedAt⟩
    isSpotlight := b.isSpotlight
    readTime := b.readTime }

/-- Modelled from the spec: the return value of `loadFromStorage` (the
storage utility module is not among the provided sources).  Per the spec,
load yields `null` when no prior snapshot exists or deserialization fails
(malformed JSON), which the load effect's `Array.isArray` check further
splits from a parsed value of non-array shape. -/
inductive StoredValue
  | jsonArray (items : List RawBlog)
  | nonArray
deriving DecidableEq

/-- The in-memory collection after the mount-time load effect: a stored
array is revived and replaces the seed exactly when it is non-empty and at
least as long as `sampleBlogs`; in every other case the seed data stays. -/
def startupBlogs (savedBlogs : Option StoredValue) : List Blog :=
  match savedBlogs with
  | some (.jsonArray items) =>
    if 0 < items.length then
      let blogsWithDates := items.map reviveBlog
      if sampleBlogs.length ≤ blogsWithDates.length then blogsWithDates else sampleBlogs
    else sampleBlogs
  | some .nonArray => sampleBlogs
  | none => sampleBlogs

/-- The snapshot persisted once mount settles: the load effect writes the
seed explicitly when nothing was stored, and the persistence effect
(`useEffect` on `blogs`) writes the current non-empty collection, so the
stored snapshot ends up equal to the in-memory collection in every case. -/
def startupStorage (savedBlogs : Option StoredValue) : List Blog :=
  startupBlogs savedBlogs

/-! Concrete fixtures used by witnesses and counterexamples. -/

/-- A small concrete blog post (readTime deliberately not 1). -/
def exBlog1 : Blog :=
  { id := "1", title := "t", content := "x", excerpt := "e", authorId := "a"
    authorName := "n", authorAvatar := none, category := "c", tags := []
    likes := [], views := 0, comments := [], createdAt := ⟨0⟩, updatedAt := ⟨0⟩
    isSpotlight := none, readTime := 8 }

/-- A concrete state holding `exBlog1` and its cache entry. -/
def exState1 : BlogState := ⟨[exBlog1], [("1", "cached full body")]⟩

/-- A concrete state whose cache holds a dangling entry (key "9") with no
matching post; reachable from `exState1`-like states because an update
whose partial fields contain an id renames the post but not its cache
entry. -/
def exState9 : BlogState := ⟨[exBlog1], [("9", "dangling")]⟩

/-- Equality of two blogs on every field other than `likes`. -/
def sameExceptLikes (x b : Blog) : Prop :=
  x.id = b.id ∧ x.title = b.title ∧ x.content = b.content ∧
  x.excerpt = b.excerpt ∧ x.authorId = b.authorId ∧ x.authorName = b.authorName ∧
  x.authorAvatar = b.authorAvatar ∧ x.category = b.category ∧ x.tags = b.tags ∧
  x.views = b.views ∧ x.comments = b.comments ∧ x.createdAt = b.createdAt ∧
  x.updatedAt = b.updatedAt ∧ x.isSpotlight = b.isSpotlight ∧ x.readTime = b.readTime

/-- A concrete comment authored by user "a". -/
def exComment1 : Comment := ⟨"c1", "a", "n", none, "hello", ⟨0⟩, none⟩

/-- A concrete comment authored by user "zz". -/
def exComment2 : Comment := ⟨"c2", "zz", "m", none, "yo", ⟨0⟩, none⟩

/-- The example blog with two comments attached. -/
def exBlogC : Blog := { exBlog1 with comments := [exComment1, exComment2] }

/-- A state holding the commented blog. -/
def exStateC : BlogState := ⟨[exBlogC], []⟩

/-- Two example blogs with distinct timestamps and like-counts. -/
def exBlogA : Blog := { exBlog1 with id := "A", createdAt := ⟨10⟩ }

/-- Second example blog for sorting. -/
def exBlogB : Blog := { exBlog1 with id := "B", createdAt := ⟨20⟩, likes := ["u1"] }

/-- Example list for the sorting witness. -/
def exList2 : List Blog := [exBlogA, exBlogB]

/-- A concrete stored blog for the startup witness (with a nested raw
comment timestamp). -/
def exRaw1 : RawBlog :=
  ⟨"r1", "t", "c", "e", "a", "n", none, "cat", [], [], 3,
   [⟨"cc", "za", "zn", none, "hey", 77, none⟩], 11, 22, none, 1⟩

/-! Helper lemmas -/

/-- Splitting always yields at least one field. -/
theorem one_le_splitWsGo_length : ∀ (fuel : Nat) (l : List Char), 1 ≤ (splitWsGo fuel l).length := by
  intro fuel
  induction fuel with
  | zero =>
    intro l
    cases l <;> simp [splitWsGo]
  | succ n ih =>
    intro l
    cases l with
    | nil => simp [splitWsGo]
    | cons c r =>
      by_cases h : isJsSpace c
      · simp [splitWsGo, h]
      · simp only [splitWsGo, h, if_false, Bool.false_eq_true]
        cases hm : splitWsGo n r with
        | nil => simp
        | cons f fs => simp

/-- The derived read time is at least one minute for every content. -/
theorem one_le_calculateReadTime (s : String) : 1 ≤ calculateReadTime s := by
  have h := one_le_splitWsGo_length (stripTags s.data).length (stripTags s.data)
  simp only [calculateReadTime, splitWs]
  omega

/-- A map whose body fixes every element of the list is the identity. -/
theorem map_eq_self_of {α : Type} (f : α → α) (l : List α) (h : ∀ a ∈ l, f a = a) :
    l.map f = l := by
  induction l with
  | nil => rfl
  | cons x xs ih =>
    simp only [List.map_cons, h x (by simp)]
    rw [ih (fun a ha => h a (by simp [ha]))]

/-- A filter applied twice is the filter applied once. -/
theorem filter_self_eq {α : Type} (p : α → Bool) (l : List α) :
    (l.filter p).filter p = l.filter p :=
  List.filter_eq_self.mpr (fun _ ha => List.of_mem_filter ha)

/-- C10: For every content string, the derived read time is at least 1
minute: stripping tags and splitting on whitespace always yields at least
one token (the empty string yields a single empty token that is counted as
a word), so calculateReadTime(content) = ceil(wordCount/200) >= 1 for all
inputs, and in particular a post created with empty content gets
readTime 1, never 0. -/
theorem calculateReadTime_ge_one (s : String) (u : User) (d : BlogDraft)
    (fid : String) (rand : Nat) (now : Date) (st : BlogState)
    (hd : d.content = "") :
    1 ≤ (splitWs (stripTags s.data)).length ∧
    1 ≤ calculateReadTime s ∧
    calculateReadTime ("") = 1 ∧
    ((createBlog (some u) d fid rand now st).2.blogs.head?).map Blog.readTime = some 1 := by
  refine ⟨one_le_splitWsGo_length _ _, one_le_calculateReadTime s, rfl, ?_⟩
  simp [createBlog, hd]
  rfl

/-- Witness for C10 at concrete inputs. -/
theorem calculateReadTime_ge_one_witness :
    1 ≤ (splitWs (stripTags ("hi there").data)).length ∧
    1 ≤ calculateReadTime ("hi there") ∧
    calculateReadTime ("") = 1 ∧
    ((createBlog (some ⟨"u1", "alice", none⟩)
        ⟨"t", "", "e", "c", [], none⟩ ("b1") 0 ⟨0⟩ ⟨[], []⟩).2.blogs.head?).map
      Blog.readTime = some 1 :=
  calculateReadTime_ge_one ("hi there") ⟨"u1", "alice", none⟩
    ⟨"t", "", "e", "c", [], none⟩ ("b1") 0 ⟨0⟩ ⟨[], []⟩ rfl

/-- C6: createPost called with a null acting user fails with the
Unauthorized error reported to the caller (not silently swallowed), and
the post collection is unchanged by the failed call; with a non-null
acting user it succeeds, returning the new post's id, with likes
initialized to the empty set and comments to the empty list. -/
theorem createBlog_requires_user (d : BlogDraft) (fid : String) (rand : Nat)
    (now : Date) (st : BlogState) (u : User) :
    createBlog none d fid rand now st =
      (Except.error ("User must be logged in to create blog"), st) ∧
    (createBlog (some u) d fid rand now st).1 = Except.ok fid ∧
    ((createBlog (some u) d fid rand now st).2.blogs.head?).map Blog.id = some fid ∧
    ((createBlog (some u) d fid rand now st).2.blogs.head?).map Blog.likes = some [] ∧
    ((createBlog (some u) d fid rand now st).2.blogs.head?).map Blog.comments = some [] ∧
    (createBlog (some u) d fid rand now st).2.blogs.tail = st.blogs :=
  ⟨rfl, rfl, rfl, rfl, rfl, rfl⟩

/-- C8: incrementViews requires no acting user, increases the matching
post's views counter by exactly 1 while leaving its every other field
(including updatedAt) and every other post unchanged, and is a total
no-op when no post has the id. -/
theorem incrementViews_spec (st : BlogState) (id : String) :
    (incrementViews id st).fullContentStorage = st.fullContentStorage ∧
    (incrementViews id st).blogs.length = st.blogs.length ∧
    (∀ i : Nat, ∀ b : Blog, st.blogs[i]? = some b →
      (b.id ≠ id → (incrementViews id st).blogs[i]? = some b) ∧
      (b.id = id →
        (incrementViews id st).blogs[i]? = some { b with views := b.views + 1 })) ∧
    ((∀ b ∈ st.blogs, b.id ≠ id) → incrementViews id st = st) := by
  obtain ⟨bl, fcs⟩ := st
  refine ⟨rfl, by simp [incrementViews], ?_, ?_⟩
  · intro i b hb
    constructor
    · intro hne
      simp only [incrementViews, List.getElem?_map, hb, Option.map_some]
      simp [hne]
    · intro heq
      simp only [incrementViews, List.getElem?_map, hb, Option.map_some]
      simp [heq]
  · intro hall
    simp only [incrementViews, BlogState.mk.injEq, and_true]
    exact map_eq_self_of _ bl (fun b hb => by simp [hall b hb])

/-- Witness for C8 at concrete inputs: the matching post's views go from
0 to 1 with nothing else touched, and an unknown id is a no-op. -/
theorem incrementViews_spec_witness :
    (incrementViews ("1") exState1).blogs[0]? =
      some { exBlog1 with views := exBlog1.views + 1 } ∧
    incrementViews ("2") exState1 = exState1 :=
  ⟨((incrementViews_spec exState1 ("1")).2.2.1 0 exBlog1 rfl).2 rfl,
   (incrementViews_spec exState1 ("2")).2.2.2 (by decide)⟩

/-- C5 counterexample: in a state with no post of id "9" but a dangling
full-content cache entry keyed "9" (reachable because an update whose
partial fields contain an id renames the post without touching its cache
entry), deletePost("9") leaves the collection unchanged but removes the
cache entry, so the claim's "both the collection and the cache are left
unchanged" fails. -/
theorem deleteBlog_cache_counterexample :
    exState9.blogs.map Blog.id = ["1"] ∧
    (deleteBlog ("9") exState9).blogs = exState9.blogs ∧
    exState9.fullContentStorage = [("9", "dangling")] ∧
    (deleteBlog ("9") exState9).fullContentStorage = [] ∧
    (deleteBlog ("9") exState9).fullContentStorage ≠ exState9.fullContentStorage := by
  decide

/-- C5 (amended): deletePost removes from the collection exactly the
posts with the given id and from the full-content cache exactly the
entries keyed by it (everything else is kept in order); for an id with no
matching post the collection is left unchanged and no exception is
thrown, and the cache too is unchanged whenever it holds no entry for the
id (a dangling cache entry for the id is still removed); calling
deletePost twice with the same id has the same effect as calling it once
(idempotent). -/
theorem deleteBlog_spec (st : BlogState) (bid : String) :
    (∀ b ∈ (deleteBlog bid st).blogs, b.id ≠ bid) ∧
    (∀ kv ∈ (deleteBlog bid st).fullContentStorage, kv.1 ≠ bid) ∧
    (deleteBlog bid st).blogs.Sublist st.blogs ∧
    (deleteBlog bid st).fullContentStorage.Sublist st.fullContentStorage ∧
    (∀ b ∈ st.blogs, b.id ≠ bid → b ∈ (deleteBlog bid st).blogs) ∧
    (∀ kv ∈ st.fullContentStorage, kv.1 ≠ bid →
      kv ∈ (deleteBlog bid st).fullContentStorage) ∧
    deleteBlog bid (deleteBlog bid st) = deleteBlog bid st ∧
    ((∀ b ∈ st.blogs, b.id ≠ bid) → (deleteBlog bid st).blogs = st.blogs) ∧
    ((∀ kv ∈ st.fullContentStorage, kv.1 ≠ bid) →
      (deleteBlog bid st).fullContentStorage = st.fullContentStorage) := by
  refine ⟨?_, ?_, ?_, ?_, ?_, ?_, ?_, ?_, ?_⟩
  · intro b hb
    simp only [deleteBlog] at hb
    have h := List.of_mem_filter hb
    simpa using h
  · intro kv hkv
    simp only [deleteBlog, mapDelete] at hkv
    have h := List.of_mem_filter hkv
    simpa using h
  · exact List.filter_sublist _
  · exact List.filter_sublist _
  · intro b hb hne
    exact List.mem_filter.mpr ⟨hb, by simp [hne]⟩
  · intro kv hkv hne
    exact List.mem_filter.mpr ⟨hkv, by simp [hne]⟩
  · obtain ⟨bl, fcs⟩ := st
    simp only [deleteBlog, mapDelete]
    rw [filter_self_eq, filter_self_eq]
  · intro hall
    exact List.filter_eq_self.mpr (fun b hb => by simp [hall b hb])
  · intro hall
    exact List.filter_eq_self.mpr (fun kv hkv => by simp [hall kv hkv])

/-- Witness for C5 (amended) at concrete inputs: deleting id "1" twice
equals deleting it once, and deleting the unknown id "2" leaves both the
collection and the cache of `exState1` unchanged. -/
theorem deleteBlog_spec_witness :
    deleteBlog ("1") (deleteBlog ("1") exState1) = deleteBlog ("1") exState1 ∧
    (deleteBlog ("2") exState1).blogs = exState1.blogs ∧
    (deleteBlog ("2") exState1).fullContentStorage = exState1.fullContentStorage :=
  ⟨(deleteBlog_spec exState1 ("1")).2.2.2.2.2.2.1,
   (deleteBlog_spec exState1 ("2")).2.2.2.2.2.2.2.1 (by decide),
   (deleteBlog_spec exState1 ("2")).2.2.2.2.2.2.2.2 (by decide)⟩

/-- C1 counterexample: updating post "1" (stored readTime 8) with the
partial fields { content: "" } leaves readTime at 8, because the source's
recompute guard `updates.content ? ... : blog.readTime` treats the empty
string as falsy; the claimed value ceil(wordCount(stripTags(""))/200)
is 1. -/
theorem updateBlog_empty_content_counterexample :
    ((updateBlog ("1") { content := some ("") } ⟨5⟩ exState1).blogs.map Blog.readTime) = [8] ∧
    calculateReadTime ("") = 1 ∧ (8 : Nat) ≠ 1 := by
  refine ⟨?_, rfl, by decide⟩
  decide

/-- C1 (amended): after createPost the new post's readTime equals
ceil(wordCount(stripTags(content))/200) for every content string
(including the empty string), and after every updatePost call whose
partial fields include a non-empty content the updated post's readTime
equals that formula applied to the new content; an updatePost whose
content field is the empty string instead leaves readTime unchanged. -/
theorem readTime_recomputed (u : User) (d : BlogDraft) (fid : String)
    (rand : Nat) (now : Date) (st : BlogState) (uid : String)
    (upd : BlogUpdates) (c : String) (hc : upd.content = some c) (hne : c ≠ "") :
    ((createBlog (some u) d fid rand now st).2.blogs.head?).map Blog.readTime =
      some (calculateReadTime d.content) ∧
    ∀ i : Nat, ∀ b : Blog, st.blogs[i]? = some b → b.id = uid →
      ((updateBlog uid upd now st).blogs[i]?).map Blog.readTime =
        some (calculateReadTime c) := by
  refine ⟨rfl, ?_⟩
  intro i b hb hbid
  simp only [updateBlog, List.getElem?_map, hb, Option.map_some]
  simp [updateOne, hbid, hc, hne]

/-- Witness for C1 (amended) at concrete inputs. -/
theorem readTime_recomputed_witness :
    ((createBlog (some ⟨"u1", "alice", none⟩) ⟨"t", "w w", "e", "c", [], none⟩
        ("b1") 0 ⟨0⟩ ⟨[], []⟩).2.blogs.head?).map Blog.readTime =
      some (calculateReadTime ("w w")) ∧
    ((updateBlog ("1") { content := some ("y") } ⟨5⟩ exState1).blogs[0]?).map Blog.readTime =
      some (calculateReadTime ("y")) :=
  ⟨(readTime_recomputed ⟨"u1", "alice", none⟩ ⟨"t", "w w", "e", "c", [], none⟩
      ("b1") 0 ⟨0⟩ ⟨[], []⟩ ("1") { content := some ("y") } ("y") rfl (by decide)).1,
   (readTime_recomputed ⟨"u1", "alice", none⟩ ⟨"t", "w w", "e", "c", [], none⟩
      ("b1") 0 ⟨0⟩ exState1 ("1") { content := some ("y") } ("y") rfl (by decide)).2
     0 exBlog1 rfl rfl⟩

/-- C2 counterexample: updatePost applied with partial fields containing
an id rewrites the matching post's id (the object spread lets `updates.id`
win), so ids are not immutable under update for every possible set of
partial fields. -/
theorem updateBlog_id_counterexample :
    (updateBlog ("1") { id := some ("2") } ⟨5⟩ exState1).blogs.map Blog.id = ["2"] ∧
    exState1.blogs.map Blog.id = ["1"] ∧ ("2" : String) ≠ "1" := by
  refine ⟨?_, rfl, by decide⟩
  decide

/-- C2 (amended): for every updatePost call whose partial fields do not
contain an id, the id of every post in the collection is the same after
the call as before it. -/
theorem updateBlog_preserves_ids (st : BlogState) (uid : String)
    (u : BlogUpdates) (now : Date) (hid : u.id = none) :
    (updateBlog uid u now st).blogs.map Blog.id = st.blogs.map Blog.id := by
  simp only [updateBlog, List.map_map]
  refine List.map_congr_left (fun b hb => ?_)
  simp only [Function.comp_apply, updateOne]
  by_cases hbid : b.id = uid
  · simp [hbid, applyUpdates, hid]
  · simp [hbid]

/-- Witness for C2 (amended) at concrete inputs. -/
theorem updateBlog_preserves_ids_witness :
    (updateBlog ("1") { title := some ("new") } ⟨5⟩ exState1).blogs.map Blog.id =
      exState1.blogs.map Blog.id :=
  updateBlog_preserves_ids exState1 ("1") { title := some ("new") } ⟨5⟩ rfl


/-- A blog whose `likes` were replaced agrees with the original on every
other field. -/
theorem sameExceptLikes_update (b : Blog) (l : List String) :
    sameExceptLikes { b with likes := l } b :=
  ⟨rfl, rfl, rfl, rfl, rfl, rfl, rfl, rfl, rfl, rfl, rfl, rfl, rfl, rfl, rfl⟩

/-- Double like-toggle on a single blog: a non-matching blog is fixed; a
matching blog keeps every other field and its `likes` membership is
restored. -/
theorem toggleOne_twice (u : User) (bid : String) (b : Blog) :
    (b.id ≠ bid → toggleOne u bid (toggleOne u bid b) = b) ∧
    sameExceptLikes (toggleOne u bid (toggleOne u bid b)) b ∧
    ∀ x : String, x ∈ (toggleOne u bid (toggleOne u bid b)).likes ↔ x ∈ b.likes := by
  by_cases hid : b.id = bid
  · by_cases hm : u.id ∈ b.likes
    · have h1 : toggleOne u bid b =
          { b with likes := b.likes.filter (fun userId => userId != u.id) } := by
        simp [toggleOne, hid, hm]
      have hnm : u.id ∉ b.likes.filter (fun userId => userId != u.id) := by
        simp [List.mem_filter]
      have h2 : toggleOne u bid (toggleOne u bid b) =
          { b with likes := b.likes.filter (fun userId => userId != u.id) ++ [u.id] } := by
        rw [h1]
        simp [toggleOne, hid, hnm]
      rw [h2]
      refine ⟨fun hc => absurd hid hc, sameExceptLikes_update b _, ?_⟩
      intro x
      by_cases hx : x = u.id
      · subst hx
        simp [hm]
      · simp [List.mem_filter, hx]
    · have h1 : toggleOne u bid b = { b with likes := b.likes ++ [u.id] } := by
        simp [toggleOne, hid, hm]
      have hm2 : u.id ∈ b.likes ++ [u.id] := by simp
      have h2 : toggleOne u bid (toggleOne u bid b) =
          { b with likes := (b.likes ++ [u.id]).filter (fun userId => userId != u.id) } := by
        rw [h1]
        simp [toggleOne, hid, hm2]
      have h3 : (b.likes ++ [u.id]).filter (fun userId => userId != u.id) = b.likes := by
        rw [List.filter_append]
        have hself : b.likes.filter (fun userId => userId != u.id) = b.likes :=
          List.filter_eq_self.mpr (fun x hx => by
            simp only [bne_iff_ne, ne_eq]
            exact fun heq => hm (heq ▸ hx))
        simp [hself]
      rw [h2, h3]
      exact ⟨fun _ => rfl, sameExceptLikes_update b _, fun x => Iff.rfl⟩
  · have h0 : toggleOne u bid b = b := by simp [toggleOne, hid]
    rw [h0, h0]
    exact ⟨fun _ => rfl, sameExceptLikes_update b _, fun x => Iff.rfl⟩

/-- C3: for every post whose likes list contains each user id at most
once and every non-null acting user, toggling like twice in succession
with the same user returns each post's likes to the original membership,
changes no other field of any post, leaves non-matching posts untouched,
and leaves the cache untouched. -/
theorem toggleLike_twice_restores (st : BlogState) (u : User) (bid : String)
    (_hn : ∀ b ∈ st.blogs, b.likes.Nodup) :
    (toggleLikeBlog (some u) bid (toggleLikeBlog (some u) bid st)).fullContentStorage =
      st.fullContentStorage ∧
    (toggleLikeBlog (some u) bid (toggleLikeBlog (some u) bid st)).blogs.length =
      st.blogs.length ∧
    ∀ i : Nat, ∀ b : Blog, st.blogs[i]? = some b →
      (toggleLikeBlog (some u) bid (toggleLikeBlog (some u) bid st)).blogs[i]? =
        some (toggleOne u bid (toggleOne u bid b)) ∧
      (b.id ≠ bid → toggleOne u bid (toggleOne u bid b) = b) ∧
      sameExceptLikes (toggleOne u bid (toggleOne u bid b)) b ∧
      ∀ x : String, x ∈ (toggleOne u bid (toggleOne u bid b)).likes ↔ x ∈ b.likes := by
  refine ⟨rfl, by simp [toggleLikeBlog], ?_⟩
  intro i b hb
  have hpt := toggleOne_twice u bid b
  refine ⟨?_, hpt.1, hpt.2.1, hpt.2.2⟩
  simp [toggleLikeBlog, List.map_map, List.getElem?_map, hb]

/-- Witness for C3 at concrete inputs: user "u1" toggles twice on a post
they had not liked; all fields survive and membership is restored. -/
theorem toggleLike_twice_restores_witness :
    (toggleLikeBlog (some ⟨"u1", "alice", none⟩) ("1")
        (toggleLikeBlog (some ⟨"u1", "alice", none⟩) ("1") exState1)).blogs[0]? =
      some (toggleOne ⟨"u1", "alice", none⟩ ("1")
        (toggleOne ⟨"u1", "alice", none⟩ ("1") exBlog1)) ∧
    sameExceptLikes
      (toggleOne ⟨"u1", "alice", none⟩ ("1")
        (toggleOne ⟨"u1", "alice", none⟩ ("1") exBlog1)) exBlog1 ∧
    (("u1" : String) ∈ (toggleOne ⟨"u1", "alice", none⟩ ("1")
        (toggleOne ⟨"u1", "alice", none⟩ ("1") exBlog1)).likes ↔
      ("u1" : String) ∈ exBlog1.likes) := by
  have h := (toggleLike_twice_restores exState1 ⟨"u1", "alice", none⟩ ("1")
    (by decide)).2.2 0 exBlog1 rfl
  exact ⟨h.1, h.2.2.1, h.2.2.2 ("u1")⟩

/-- C4: for a non-null acting user, deleteComment removes from the
matching post exactly those comments whose id equals commentId and whose
author is the acting user or whose acting user's id starts with the
literal prefix "admin"; all other comments, other posts and the cache are
unchanged, and with a null acting user the entire state is unchanged. -/
theorem deleteComment_spec (st : BlogState) (u : User) (postId commentId : String) :
    deleteComment none postId commentId st = st ∧
    (deleteComment (some u) postId commentId st).fullContentStorage =
      st.fullContentStorage ∧
    (deleteComment (some u) postId commentId st).blogs.length = st.blogs.length ∧
    ∀ i : Nat, ∀ b : Blog, st.blogs[i]? = some b →
      (b.id ≠ postId →
        (deleteComment (some u) postId commentId st).blogs[i]? = some b) ∧
      (b.id = postId →
        (deleteComment (some u) postId commentId st).blogs[i]? =
          some { b with comments := b.comments.filter (fun comment =>
            !(comment.id == commentId &&
              (comment.authorId == u.id || isAdminId u.id))) }) := by
  have hpt : ∀ comment : Comment,
      (comment.id != commentId || (comment.authorId != u.id && !(isAdminId u.id))) =
        !(comment.id == commentId && (comment.authorId == u.id || isAdminId u.id)) := by
    intro comment
    cases h1 : comment.id == commentId <;>
      cases h2 : comment.authorId == u.id <;>
        cases h3 : isAdminId u.id <;> simp [bne, h1, h2, h3]
  refine ⟨rfl, rfl, by simp [deleteComment], ?_⟩
  intro i b hb
  constructor
  · intro hne
    simp only [deleteComment, List.getElem?_map, hb, Option.map_some]
    simp [hne]
  · intro heq
    have hfe : b.comments.filter (fun comment =>
        comment.id != commentId || (comment.authorId != u.id && !(isAdminId u.id))) =
        b.comments.filter (fun comment =>
          !(comment.id == commentId && (comment.authorId == u.id || isAdminId u.id))) :=
      List.filter_congr (fun comment _ => hpt comment)
    simp [deleteComment, List.getElem?_map, hb, heq, hfe]





/-- Witness for C4 at concrete inputs: a null user changes nothing, and
the comment's author removes exactly their own comment. -/
theorem deleteComment_spec_witness :
    deleteComment none ("1") ("c1") exStateC = exStateC ∧
    (deleteComment (some ⟨"a", "alice", none⟩) ("1") ("c1") exStateC).blogs[0]? =
      some { exBlogC with comments := exBlogC.comments.filter (fun comment =>
        !(comment.id == "c1" &&
          (comment.authorId == (⟨"a", "alice", none⟩ : User).id ||
            isAdminId (⟨"a", "alice", none⟩ : User).id))) } :=
  ⟨(deleteComment_spec exStateC ⟨"a", "alice", none⟩ ("1") ("c1")).1,
   ((deleteComment_spec exStateC ⟨"a", "alice", none⟩ ("1") ("c1")).2.2.2
      0 exBlogC rfl).2 rfl⟩

/-! Sorting lemmas -/

/-- Sortedness of `insertionSort` for a relation that mirrors an integer
key. -/
theorem sorted_insertionSort_key (key : Blog → Int) (r : Blog → Blog → Prop)
    [DecidableRel r] (hiff : ∀ a b, r a b ↔ key a ≤ key b) (l : List Blog) :
    (l.insertionSort r).Pairwise r := by
  haveI : IsTotal Blog r := ⟨fun a b => by
    rcases Int.le_total (key a) (key b) with h | h
    · exact Or.inl ((hiff a b).mpr h)
    · exact Or.inr ((hiff b a).mpr h)⟩
  haveI : IsTrans Blog r := ⟨fun a b c h1 h2 =>
    (hiff a c).mpr (le_trans ((hiff a b).mp h1) ((hiff b c).mp h2))⟩
  exact List.sorted_insertionSort r l

/-- Two lists that are permutations of one another, both sorted by an
integer key that is duplicate-free on them, are equal. -/
theorem eq_of_perm_sorted_key (key : Blog → Int) {l₁ l₂ : List Blog}
    (hp : l₁.Perm l₂)
    (h₁ : l₁.Pairwise fun a b => key a ≤ key b)
    (h₂ : l₂.Pairwise fun a b => key a ≤ key b)
    (hnd : (l₁.map key).Nodup) : l₁ = l₂ := by
  haveI : IsAntisymm Blog (fun a b => key a < key b) :=
    ⟨fun a b hab hba => absurd (lt_trans hab hba) (lt_irrefl _)⟩
  have hne₁ : l₁.Pairwise fun a b => key a ≠ key b := List.pairwise_map.mp hnd
  have hnd₂ : (l₂.map key).Nodup := ((hp.map key).nodup_iff).mp hnd
  have hne₂ : l₂.Pairwise fun a b => key a ≠ key b := List.pairwise_map.mp hnd₂
  have hs₁ : l₁.Pairwise fun a b => key a < key b :=
    (h₁.and hne₁).imp (fun h => lt_of_le_of_ne h.1 h.2)
  have hs₂ : l₂.Pairwise fun a b => key a < key b :=
    (h₂.and hne₂).imp (fun h => lt_of_le_of_ne h.1 h.2)
  exact List.eq_of_perm_of_sorted hp hs₁ hs₂

/-- C7: on a list of posts with pairwise distinct createdAt timestamps,
sorting by recent/asc after sorting by recent/desc reverses the
recent/desc order exactly; the asc flag negates the desc comparator for
every sort key; and sorting by likes/asc orders by ascending like-count. -/
theorem getSortedBlogs_spec (X : List Blog) :
    ((X.Pairwise fun a b => a.createdAt ≠ b.createdAt) →
      getSortedBlogs .recent .asc (getSortedBlogs .recent .desc X) =
        (getSortedBlogs .recent .desc X).reverse) ∧
    (getSortedBlogs .likes .asc X).Pairwise
      (fun a b => a.likes.length ≤ b.likes.length) ∧
    ∀ (s : SortBy) (a b : Blog),
      sortComparator s .asc a b = -(sortComparator s .desc a b) := by
  refine ⟨?_, ?_, fun s a b => rfl⟩
  · intro hdist
    have hiffD : ∀ a b : Blog,
        (sortComparator .recent .desc a b ≤ 0) ↔
          (-(a.createdAt.ms) ≤ -(b.createdAt.ms)) := by
      intro a b
      simp only [sortComparator, comparison]
      omega
    have hiffA : ∀ a b : Blog,
        (sortComparator .recent .asc a b ≤ 0) ↔
          (a.createdAt.ms ≤ b.createdAt.ms) := by
      intro a b
      simp only [sortComparator, comparison]
      omega
    have hYs : (getSortedBlogs .recent .desc X).Pairwise
        (fun a b => sortComparator .recent .desc a b ≤ 0) :=
      sorted_insertionSort_key (fun b => -(b.createdAt.ms)) _ hiffD X
    have hYperm : (getSortedBlogs .recent .desc X).Perm X :=
      List.perm_insertionSort _ X
    have hZs : (getSortedBlogs .recent .asc (getSortedBlogs .recent .desc X)).Pairwise
        (fun a b => sortComparator .recent .asc a b ≤ 0) :=
      sorted_insertionSort_key (fun b => b.createdAt.ms) _ hiffA _
    have hZperm : (getSortedBlogs .recent .asc (getSortedBlogs .recent .desc X)).Perm
        (getSortedBlogs .recent .desc X) :=
      List.perm_insertionSort _ _
    have hZle : (getSortedBlogs .recent .asc (getSortedBlogs .recent .desc X)).Pairwise
        (fun a b => a.createdAt.ms ≤ b.createdAt.ms) :=
      List.Pairwise.imp (fun h => (hiffA _ _).mp h) hZs
    have hYrevle : (getSortedBlogs .recent .desc X).reverse.Pairwise
        (fun a b => a.createdAt.ms ≤ b.createdAt.ms) := by
      rw [List.pairwise_reverse]
      exact List.Pairwise.imp (fun h => by
        have := (hiffD _ _).mp h
        omega) hYs
    have hperm2 : (getSortedBlogs .recent .asc (getSortedBlogs .recent .desc X)).Perm
        (getSortedBlogs .recent .desc X).reverse :=
      hZperm.trans ((getSortedBlogs .recent .desc X).reverse_perm).symm
    have hXnd : (X.map (fun b => b.createdAt.ms)).Nodup := by
      refine List.pairwise_map.mpr ?_
      refine List.Pairwise.imp ?_ hdist
      intro a b h hms
      apply h
      have h1 : a.createdAt = (⟨a.createdAt.ms⟩ : Date) := rfl
      have h2 : b.createdAt = (⟨b.createdAt.ms⟩ : Date) := rfl
      rw [h1, h2, hms]
    have hZnd : ((getSortedBlogs .recent .asc (getSortedBlogs .recent .desc X)).map
        (fun b => b.createdAt.ms)).Nodup := by
      have hpermZX : (getSortedBlogs .recent .asc (getSortedBlogs .recent .desc X)).Perm X :=
        hZperm.trans hYperm
      exact ((hpermZX.map _).nodup_iff).mpr hXnd
    exact eq_of_perm_sorted_key (fun b => b.createdAt.ms) hperm2 hZle hYrevle hZnd
  · have hiffL : ∀ a b : Blog,
        (sortComparator .likes .asc a b ≤ 0) ↔
          ((a.likes.length : Int) ≤ (b.likes.length : Int)) := by
      intro a b
      simp only [sortComparator, comparison]
      omega
    have hs := sorted_insertionSort_key (fun b => (b.likes.length : Int)) _ hiffL X
    exact List.Pairwise.imp (fun h => by exact_mod_cast (hiffL _ _).mp h) hs




/-- Witness for C7 at concrete inputs. -/
theorem getSortedBlogs_spec_witness :
    getSortedBlogs .recent .asc (getSortedBlogs .recent .desc exList2) =
      (getSortedBlogs .recent .desc exList2).reverse ∧
    (getSortedBlogs .likes .asc exList2).Pairwise
      (fun a b => a.likes.length ≤ b.likes.length) :=
  ⟨(getSortedBlogs_spec exList2).1 (by decide), (getSortedBlogs_spec exList2).2.1⟩

/-- C9: startup keeps (and persists) the seed set when the snapshot is
missing, malformed (non-array), or shorter than the 5-post seed set — so
the application never starts empty — and a parsed snapshot with at least
as many posts replaces the collection with all date fields (including
nested comment timestamps) reconstructed as Date values. -/
theorem startup_policy (savedBlogs : Option StoredValue) :
    (startupBlogs savedBlogs ≠ [] ∧
      startupStorage savedBlogs = startupBlogs savedBlogs) ∧
    (savedBlogs = none → startupBlogs savedBlogs = sampleBlogs) ∧
    (savedBlogs = some .nonArray → startupBlogs savedBlogs = sampleBlogs) ∧
    (∀ items : List RawBlog, savedBlogs = some (.jsonArray items) →
      items.length < sampleBlogs.length → startupBlogs savedBlogs = sampleBlogs) ∧
    (∀ items : List RawBlog, savedBlogs = some (.jsonArray items) →
      sampleBlogs.length ≤ items.length →
      startupBlogs savedBlogs = items.map reviveBlog) := by
  have hsn : sampleBlogs ≠ [] := by simp [sampleBlogs]
  refine ⟨⟨?_, rfl⟩, fun h => by subst h; rfl, fun h => by subst h; rfl, ?_, ?_⟩
  · cases savedBlogs with
    | none => exact hsn
    | some v =>
      cases v with
      | nonArray => exact hsn
      | jsonArray items =>
        simp only [startupBlogs]
        by_cases h0 : 0 < items.length
        · simp only [h0, if_true]
          by_cases hle : sampleBlogs.length ≤ (items.map reviveBlog).length
          · simp only [hle, if_true]
            intro hnil
            rw [hnil] at hle
            simp only [List.length_nil, Nat.le_zero] at hle
            exact hsn (List.eq_nil_of_length_eq_zero hle)
          · simp only [hle, if_false]
            exact hsn
        · simp only [h0, if_false]
          exact hsn
  · intro items heq hlt
    subst heq
    have hnle : ¬sampleBlogs.length ≤ (items.map reviveBlog).length := by
      rw [List.length_map]
      omega
    simp only [startupBlogs, hnle, if_false]
    by_cases h0 : 0 < items.length <;> simp [h0]
  · intro items heq hge
    subst heq
    have h5 : (5 : Nat) ≤ items.length := hge
    have h0 : 0 < items.length := by omega
    have hle : sampleBlogs.length ≤ (items.map reviveBlog).length := by
      rw [List.length_map]
      exact hge
    simp only [startupBlogs, h0, if_true, hle]


/-- Witness for C9 at concrete inputs: a 1-element snapshot keeps the
seed, a 5-element snapshot replaces the collection with revived dates,
and a missing snapshot keeps the seed. -/
theorem startup_policy_witness :
    startupBlogs (some (.jsonArray [exRaw1])) = sampleBlogs ∧
    startupBlogs (some (.jsonArray (List.replicate 5 exRaw1))) =
      (List.replicate 5 exRaw1).map reviveBlog ∧
    startupBlogs none = sampleBlogs :=
  ⟨(startup_policy (some (.jsonArray [exRaw1]))).2.2.2.1 [exRaw1] rfl (by decide),
   (startup_policy (some (.jsonArray (List.replicate 5 exRaw1)))).2.2.2.2
     (List.replicate 5 exRaw1) rfl (by decide),
   (startup_policy none).2.1 rfl⟩

end BlogVerse
